import Mathlib

namespace Astro

/-- Heliocentric-ecliptic state of a body: the time it was computed for and the
Cartesian position, mirroring the fields written by Planet.setTime. -/
structure PlanetState where
  time : ℝ
  x : ℝ
  y : ℝ
  z : ℝ

/-- Axial obliquity of the Earth in radians, linear in time. -/
noncomputable def obliquity (time : ℝ) : ℝ := 0.412994 - 4121e-18 * time

/-- Greenwich mean sidereal time in hours, linear in time, unwrapped. -/
noncomputable def gmst (time : ℝ) : ℝ := 6.699851 + 278538308153e-18 * time

/-- Geocentric parallax correction in degrees as a function of distance in AU. -/
noncomputable def parallax (distance : ℝ) : ℝ := 2443e-6 / distance

/-- Two-argument arctangent with the convention of Math.atan2 on exact real
inputs: the angle of the point (X, Y), in the half-open interval (-pi, pi]. -/
noncomputable def atan2 (Y X : ℝ) : ℝ := Complex.arg ⟨X, Y⟩

/-- Distance of the body from the origin in AU. -/
noncomputable def distance (s : PlanetState) : ℝ :=
  Real.sqrt (s.x * s.x + s.y * s.y + s.z * s.z)

/-- Model of the JavaScript expression Math.atan2(-y, -x): when y is exactly
zero the literal negation -y is IEEE negative zero, so for nonnegative x the
call lands on the negative real axis approached from below and Math.atan2
returns -pi rather than pi. For every other input it agrees with atan2. -/
noncomputable def atan2NegNeg (y x : ℝ) : ℝ :=
  if y = 0 ∧ 0 ≤ x then -Real.pi else atan2 (-y) (-x)

/-- Ecliptic longitude accessor, degrees. -/
noncomputable def longitude (s : PlanetState) : ℝ :=
  atan2NegNeg s.y s.x * (180 / Real.pi) + 180

/-- Ecliptic latitude accessor, degrees. -/
noncomputable def latitude (s : PlanetState) : ℝ :=
  Real.arcsin (s.z / distance s) * (180 / Real.pi)

/-- Right ascension accessor, hours. -/
noncomputable def right_ascension (s : PlanetState) : ℝ :=
  atan2 (s.z * Real.sin (obliquity s.time) - s.y * Real.cos (obliquity s.time)) (-s.x)
    * (12 / Real.pi) + 12

/-- Declination accessor, degrees. -/
noncomputable def declination (s : PlanetState) : ℝ :=
  Real.arcsin ((s.y * Real.sin (obliquity s.time) + s.z * Real.cos (obliquity s.time))
    / distance s) * (180 / Real.pi)

/-- Hour angle at longitude lon, in hours, wrapped by the floor rule. -/
noncomputable def hour_angle (s : PlanetState) (lon : ℝ) : ℝ :=
  (gmst s.time + lon * (1 / 15) - right_ascension s) -
    (⌊(gmst s.time + lon * (1 / 15) - right_ascension s) / 24⌋ : ℝ) * 24

/-- Local meridian crossing timestamp; lat is accepted but unused, as in the
source. -/
noncomputable def transit (s : PlanetState) (lat lon : ℝ) : ℝ :=
  s.time - 3590170.4 *
    (if hour_angle s lon > 12 then hour_angle s lon - 24 else hour_angle s lon)

/-- Result of the observer projection. -/
structure ObserverResult where
  altitude : ℝ
  azimuth : ℝ

/-- Observer projection: topocentric horizontal coordinates of the body seen
from latitude lat and longitude lon, as computed by the Observer constructor. -/
noncomputable def observer (p : PlanetState) (lat lon : ℝ) : ObserverResult :=
  let sin_lat := Real.sin (lat * (Real.pi / 180))
  let cos_lat := Real.cos (lat * (Real.pi / 180))
  let dec := declination p
  let sin_dec := Real.sin (dec * (Real.pi / 180))
  let cos_dec := Real.cos (dec * (Real.pi / 180))
  let ha := hour_angle p lon
  let sin_ha := Real.sin (ha * (Real.pi / 12))
  let cos_ha := Real.cos (ha * (Real.pi / 12))
  let sin_altitude := sin_lat * sin_dec + cos_lat * cos_dec * cos_ha
  let cos_altitude := Real.sqrt (1 - sin_altitude * sin_altitude)
  let azimuth := atan2 (cos_dec * sin_ha) (sin_lat * cos_dec * cos_ha - cos_lat * sin_dec)
    * (180 / Real.pi) + 180
  let altitude := Real.arcsin sin_altitude * (180 / Real.pi)
    - parallax (distance p) * cos_altitude
  ⟨altitude, azimuth⟩

/-- Cosine of the local hour angle from the sunrise equation, as evaluated in
one iteration of riseset at the current state c. -/
noncomputable def rsCosLHA (sin_lat cos_lat sin_h0 : ℝ) (c : PlanetState) : ℝ :=
  (sin_h0 - sin_lat * Real.sin (declination c * (Real.pi / 180))) /
    (cos_lat * Real.cos (declination c * (Real.pi / 180)))

/-- Candidate event timestamp computed by one iteration of riseset at the
current state c. -/
noncomputable def rsCandidate (lat lon sin_lat cos_lat sin_h0 direction : ℝ)
    (c : PlanetState) : ℝ :=
  transit c lat lon + 13713440.9 * direction *
    Real.arccos (rsCosLHA sin_lat cos_lat sin_h0 c)

/-- Iteration loop of Planet.riseset. The body argument models the virtual
setTime call: it maps a timestamp to the state the body computes for it. The
snap argument carries the saved state restored on both return paths, cur the
mutated working state. The fuel argument bounds the number of iterations of
the source's unbounded loop; none means the loop was still running when the
fuel ran out, some (none, s) models returning NaN with the object state s, and
some (some t, s) models returning the timestamp t with the object state s. -/
noncomputable def risesetLoop (body : ℝ → PlanetState)
    (lat lon sin_lat cos_lat sin_h0 direction : ℝ) :
    ℕ → PlanetState → PlanetState → Option (Option ℝ × PlanetState)
  | 0, _, _ => none
  | fuel + 1, snap, cur =>
    if 1 < |rsCosLHA sin_lat cos_lat sin_h0 cur| then
      some (none, snap)
    else
      if 60000 ≤ |rsCandidate lat lon sin_lat cos_lat sin_h0 direction cur - cur.time| then
        risesetLoop body lat lon sin_lat cos_lat sin_h0 direction fuel snap
          (body (rsCandidate lat lon sin_lat cos_lat sin_h0 direction cur))
      else
        some (some (rsCandidate lat lon sin_lat cos_lat sin_h0 direction cur), snap)

/-- Planet.riseset: saves the state, runs the iteration loop with the sines
and cosines precomputed from lat and h0 once at entry, exactly as the source
hoists them out of the loop. -/
noncomputable def riseset (body : ℝ → PlanetState) (s : PlanetState)
    (lat lon h0 direction : ℝ) (fuel : ℕ) : Option (Option ℝ × PlanetState) :=
  risesetLoop body lat lon (Real.sin (lat * (Real.pi / 180)))
    (Real.cos (lat * (Real.pi / 180))) (Real.sin (h0 * (Real.pi / 180)))
    direction fuel s s

/-- Planet.rise: riseset with threshold 0 and direction -1. -/
noncomputable def planetRise (body : ℝ → PlanetState) (s : PlanetState)
    (lat lon : ℝ) (fuel : ℕ) : Option (Option ℝ × PlanetState) :=
  riseset body s lat lon 0 (-1) fuel

/-- Planet.set: riseset with threshold 0 and direction +1. -/
noncomputable def planetSet (body : ℝ → PlanetState) (s : PlanetState)
    (lat lon : ℝ) (fuel : ℕ) : Option (Option ℝ × PlanetState) :=
  riseset body s lat lon 0 1 fuel

/-- Newton iteration of the Kepler solver in Planet.setTime: updates E by
dE = (M - (E - e sin E)) / (1 - e cos E) and stops once the increment has
absolute value at most 1e-8. The fuel argument bounds the number of steps of
the source's unbounded loop; when it runs out the current iterate is kept. -/
noncomputable def keplerNewton (e M : ℝ) : ℕ → ℝ → ℝ
  | 0, E => E
  | fuel + 1, E =>
    if |(M - (E - e * Real.sin E)) / (1 - e * Real.cos E)| ≤ 1e-8 then
      E + (M - (E - e * Real.sin E)) / (1 - e * Real.cos E)
    else
      keplerNewton e M fuel (E + (M - (E - e * Real.sin E)) / (1 - e * Real.cos E))

/-- Eccentric anomaly computed by Planet.setTime: Newton from the seed
M + e sin M. -/
noncomputable def keplerE (e M : ℝ) (fuel : ℕ) : ℝ :=
  keplerNewton e M fuel (M + e * Real.sin M)

/-- Planet.setTime on explicit Kepler elements: solves the Kepler equation,
forms the in-plane coordinates and rotates them into ecliptic coordinates. -/
noncomputable def setTime (fuel : ℕ) (time a e i lam peri Om : ℝ) : PlanetState :=
  let M := lam - peri
  let w := peri - Om
  let E := keplerE e M fuel
  let u := a * (Real.cos E - e)
  let v := a * Real.sqrt (1 - e * e) * Real.sin E
  let sin_i := Real.sin i
  let cos_i := Real.cos i
  let sin_Om := Real.sin Om
  let cos_Om := Real.cos Om
  let sin_w := Real.sin w
  let cos_w := Real.cos w
  { time := time
    x := u * (cos_w * cos_Om - sin_w * sin_Om * cos_i) +
         v * (-sin_w * cos_Om - cos_w * sin_Om * cos_i)
    y := u * (cos_w * sin_Om + sin_w * cos_Om * cos_i) +
         v * (-sin_w * sin_Om + cos_w * cos_Om * cos_i)
    z := u * (sin_w * sin_i) + v * (cos_w * sin_i) }

/-- Sun.setTime: the Sun's time-linear Kepler elements, with inclination 0 and
ascending node 0. -/
noncomputable def sunSetTime (fuel : ℕ) (time : ℝ) : PlanetState :=
  setTime fuel time
    1.000001
    (0.016721 - 13e-18 * time)
    0
    (4.891045 + 199106385e-18 * time)
    (4.929185 + 9510e-18 * time)
    0

/-- Moon.setTime: the Moon's time-linear Kepler elements. -/
noncomputable def moonSetTime (fuel : ℕ) (time : ℝ) : PlanetState :=
  setTime fuel time
    0.002563
    0.055546
    0.090001
    (3.455090 + 2661707199e-18 * time)
    (5.282226 + 22504146e-18 * time)
    (6.026367 - 10696962e-18 * time)

/-- Altitude threshold the Moon passes to riseset, evaluated at a state. -/
noncomputable def moonThreshold (s : PlanetState) : ℝ :=
  -0.583 - parallax (distance s)

/-- Moon.rise: riseset with the distance-dependent threshold evaluated on the
current state at entry, and direction -1. The first fuel bounds the Kepler
solver inside each setTime, the second the riseset loop. -/
noncomputable def moonRise (kfuel lfuel : ℕ) (s : PlanetState) (lat lon : ℝ) :
    Option (Option ℝ × PlanetState) :=
  riseset (moonSetTime kfuel) s lat lon (-0.583 - parallax (distance s)) (-1) lfuel

/-- Moon.set: like moonRise with direction +1. -/
noncomputable def moonSet (kfuel lfuel : ℕ) (s : PlanetState) (lat lon : ℝ) :
    Option (Option ℝ × PlanetState) :=
  riseset (moonSetTime kfuel) s lat lon (-0.583 - parallax (distance s)) 1 lfuel

/-- Modelled from the spec: a variant of the riseset loop in which the
altitude threshold is recomputed from the current state at every iteration
through a threshold function, as the sentence on the Moon's rise and set
describes. Used only to compare against the source's riseset, which hoists
sin h0 out of the loop. -/
noncomputable def risesetRecomputeLoop (body : ℝ → PlanetState)
    (lat lon sin_lat cos_lat direction : ℝ) (h0f : PlanetState → ℝ) :
    ℕ → PlanetState → PlanetState → Option (Option ℝ × PlanetState)
  | 0, _, _ => none
  | fuel + 1, snap, cur =>
    if 1 < |rsCosLHA sin_lat cos_lat (Real.sin (h0f cur * (Real.pi / 180))) cur| then
      some (none, snap)
    else
      if 60000 ≤ |rsCandidate lat lon sin_lat cos_lat
          (Real.sin (h0f cur * (Real.pi / 180))) direction cur - cur.time| then
        risesetRecomputeLoop body lat lon sin_lat cos_lat direction h0f fuel snap
          (body (rsCandidate lat lon sin_lat cos_lat
            (Real.sin (h0f cur * (Real.pi / 180))) direction cur))
      else
        some (some (rsCandidate lat lon sin_lat cos_lat
          (Real.sin (h0f cur * (Real.pi / 180))) direction cur), snap)

/-- Modelled from the spec: entry point of the recomputing variant. -/
noncomputable def risesetRecompute (body : ℝ → PlanetState) (s : PlanetState)
    (lat lon : ℝ) (h0f : PlanetState → ℝ) (direction : ℝ) (fuel : ℕ) :
    Option (Option ℝ × PlanetState) :=
  risesetRecomputeLoop body lat lon (Real.sin (lat * (Real.pi / 180)))
    (Real.cos (lat * (Real.pi / 180))) direction h0f fuel s s

/-- Bail condition of one riseset iteration: the sunrise equation has no
solution at the current state. -/
noncomputable def rsBail (sin_lat cos_lat sin_h0 : ℝ) (c : PlanetState) : Prop :=
  1 < |rsCosLHA sin_lat cos_lat sin_h0 c|

/-- Step relation of the riseset loop: from a state where the sunrise equation
is solvable and whose candidate is at least a minute away, the loop advances
the body to the candidate timestamp. -/
noncomputable def rsStep (body : ℝ → PlanetState)
    (lat lon sin_lat cos_lat sin_h0 direction : ℝ) (c c2 : PlanetState) : Prop :=
  ¬ rsBail sin_lat cos_lat sin_h0 c ∧
  60000 ≤ |rsCandidate lat lon sin_lat cos_lat sin_h0 direction c - c.time| ∧
  c2 = body (rsCandidate lat lon sin_lat cos_lat sin_h0 direction c)

/-- Synthetic body used in concrete executions of the solver: every timestamp
maps to the state with position (-1, 0, 0). -/
noncomputable def cexBody : ℝ → PlanetState := fun t => ⟨t, -1, 0, 0⟩

theorem hour_angle_bounds (s : PlanetState) (lon : ℝ) :
    0 ≤ hour_angle s lon ∧ hour_angle s lon < 24 := by
  unfold hour_angle
  set r := gmst s.time + lon * (1 / 15) - right_ascension s with hr
  have h1 : (⌊r / 24⌋ : ℝ) ≤ r / 24 := Int.floor_le _
  have h2 : r / 24 < ⌊r / 24⌋ + 1 := Int.lt_floor_add_one _
  constructor <;> linarith

/-- C5: the hour angle is gmst plus lon over 15 minus the right ascension,
wrapped by the floor rule, and the wrap lands in the half-open interval from
0 inclusive to 24 exclusive. -/
theorem hour_angle_formula_and_range (s : PlanetState) (lon : ℝ) :
    hour_angle s lon =
      (gmst s.time + lon / 15 - right_ascension s) -
        (⌊(gmst s.time + lon / 15 - right_ascension s) / 24⌋ : ℝ) * 24 ∧
    0 ≤ hour_angle s lon ∧ hour_angle s lon < 24 := by
  refine ⟨?_, hour_angle_bounds s lon⟩
  unfold hour_angle
  rw [mul_one_div]

/-- C4: transit subtracts the conversion constant times the hour angle
recentred into a band no wider than from -12 to 12, so the returned instant is
at most 12 times the constant away from the body's time, within one day. -/
theorem transit_formula_within_day (s : PlanetState) (lat lon : ℝ) :
    transit s lat lon = s.time - 3590170.4 *
      (if hour_angle s lon > 12 then hour_angle s lon - 24 else hour_angle s lon) ∧
    -12 ≤ (if hour_angle s lon > 12 then hour_angle s lon - 24 else hour_angle s lon) ∧
    (if hour_angle s lon > 12 then hour_angle s lon - 24 else hour_angle s lon) ≤ 12 ∧
    |transit s lat lon - s.time| ≤ 12 * 3590170.4 ∧
    |transit s lat lon - s.time| ≤ 86400000 := by
  obtain ⟨hb0, hb24⟩ := hour_angle_bounds s lon
  have hf : transit s lat lon = s.time - 3590170.4 *
      (if hour_angle s lon > 12 then hour_angle s lon - 24 else hour_angle s lon) := rfl
  have hlo : -12 ≤ (if hour_angle s lon > 12 then hour_angle s lon - 24
      else hour_angle s lon) := by split_ifs with h <;> linarith
  have hhi : (if hour_angle s lon > 12 then hour_angle s lon - 24
      else hour_angle s lon) ≤ 12 := by split_ifs with h <;> linarith
  have habs : |transit s lat lon - s.time| ≤ 12 * 3590170.4 := by
    rw [hf]
    have he : s.time - 3590170.4 *
        (if hour_angle s lon > 12 then hour_angle s lon - 24 else hour_angle s lon)
        - s.time = (-3590170.4) *
        (if hour_angle s lon > 12 then hour_angle s lon - 24 else hour_angle s lon) := by
      ring
    rw [he, abs_mul]
    have h1 : |(-3590170.4 : ℝ)| = 3590170.4 := by
      rw [abs_of_neg (by norm_num)]
      norm_num
    have h2 : |(if hour_angle s lon > 12 then hour_angle s lon - 24
        else hour_angle s lon)| ≤ 12 := abs_le.mpr ⟨hlo, hhi⟩
    rw [h1]
    nlinarith [abs_nonneg (if hour_angle s lon > 12 then hour_angle s lon - 24
      else hour_angle s lon)]
  exact ⟨hf, hlo, hhi, habs, by linarith [habs]⟩

/-- C7: transit ignores its latitude argument. -/
theorem transit_latitude_independent (s : PlanetState) (lat1 lat2 lon : ℝ) :
    transit s lat1 lon = transit s lat2 lon := rfl

/-- C6 counterexample: at the nonzero position (1, 0, 0) the right ascension
accessor returns exactly 24 hours, which is outside the half-open interval
from 0 inclusive to 24 exclusive that the claim asserts. -/
theorem right_ascension_24_counterexample :
    right_ascension ⟨0, 1, 0, 0⟩ = 24 ∧ ¬ right_ascension ⟨0, 1, 0, 0⟩ < 24 := by
  have h : right_ascension ⟨0, 1, 0, 0⟩ = 24 := by
    unfold right_ascension atan2
    have hc : (⟨-(1:ℝ), (0:ℝ) * Real.sin (obliquity 0) - 0 * Real.cos (obliquity 0)⟩ : ℂ)
        = (-1 : ℂ) := by
      apply Complex.ext <;> simp
    simp only [zero_mul, sub_zero]
    rw [show (⟨-(1:ℝ), (0:ℝ)⟩ : ℂ) = (-1 : ℂ) by apply Complex.ext <;> simp]
    rw [Complex.arg_neg_one]
    field_simp
    norm_num
  exact ⟨h, by rw [h]; norm_num⟩

/-- C6 amended: the longitude accessor always lands in the half-open interval
from 0 inclusive to 360 exclusive, while the right ascension accessor lands in
the interval from 0 exclusive to 24 inclusive: its wraparound is half-open at
the opposite end, because its first atan2 argument is a computed difference
whose exact zero selects the angle pi, not a literal negation producing
negative zero and the angle minus pi. -/
theorem pi_mul_div_pi (c : ℝ) : Real.pi * (c / Real.pi) = c := by
  rw [mul_comm]
  exact div_mul_cancel₀ c Real.pi_ne_zero

theorem longitude_and_right_ascension_range (s : PlanetState) :
    (0 ≤ longitude s ∧ longitude s < 360) ∧
    (0 < right_ascension s ∧ right_ascension s ≤ 24) := by
  have hpos : (0:ℝ) < 180 / Real.pi := by positivity
  have hpos12 : (0:ℝ) < 12 / Real.pi := by positivity
  constructor
  · unfold longitude atan2NegNeg
    split_ifs with h
    · have he : -Real.pi * (180 / Real.pi) + 180 = 0 := by
        rw [neg_mul, pi_mul_div_pi]
        ring
      rw [he]
      norm_num
    · unfold atan2
      set a := Complex.arg ⟨-s.x, -s.y⟩ with ha
      have h1 : -Real.pi < a := Complex.neg_pi_lt_arg _
      have h2 : a ≤ Real.pi := Complex.arg_le_pi _
      have h3 : a ≠ Real.pi := by
        intro heq
        have hiff := (Complex.arg_eq_pi_iff).1 (ha ▸ heq)
        simp only [Complex.neg_re, Complex.neg_im] at hiff
        exact h ⟨by linarith [hiff.2, neg_eq_zero.mp hiff.2], by linarith [hiff.1]⟩
      have h2s : a < Real.pi := lt_of_le_of_ne h2 h3
      have hlow := mul_lt_mul_of_pos_right h1 hpos
      have hhigh := mul_lt_mul_of_pos_right h2s hpos
      have e1 : -Real.pi * (180 / Real.pi) = -180 := by
        rw [neg_mul, pi_mul_div_pi]
      have e2 : Real.pi * (180 / Real.pi) = 180 := pi_mul_div_pi 180
      constructor <;> nlinarith [hlow, hhigh]
  · unfold right_ascension atan2
    set a := Complex.arg ⟨-s.x, s.z * Real.sin (obliquity s.time)
      - s.y * Real.cos (obliquity s.time)⟩ with ha
    have h1 : -Real.pi < a := Complex.neg_pi_lt_arg _
    have h2 : a ≤ Real.pi := Complex.arg_le_pi _
    have hlow := mul_lt_mul_of_pos_right h1 hpos12
    have hhigh := mul_le_mul_of_nonneg_right h2 (le_of_lt hpos12)
    have e1 : -Real.pi * (12 / Real.pi) = -12 := by
      rw [neg_mul, pi_mul_div_pi]
    have e2 : Real.pi * (12 / Real.pi) = 12 := pi_mul_div_pi 12
    constructor <;> nlinarith [hlow, hhigh]

theorem risesetLoop_zero (body : ℝ → PlanetState)
    (lat lon sin_lat cos_lat sin_h0 direction : ℝ) (snap cur : PlanetState) :
    risesetLoop body lat lon sin_lat cos_lat sin_h0 direction 0 snap cur = none := rfl

theorem risesetLoop_succ (body : ℝ → PlanetState)
    (lat lon sin_lat cos_lat sin_h0 direction : ℝ) (fuel : ℕ) (snap cur : PlanetState) :
    risesetLoop body lat lon sin_lat cos_lat sin_h0 direction (fuel + 1) snap cur =
      if 1 < |rsCosLHA sin_lat cos_lat sin_h0 cur| then
        some (none, snap)
      else
        if 60000 ≤ |rsCandidate lat lon sin_lat cos_lat sin_h0 direction cur - cur.time| then
          risesetLoop body lat lon sin_lat cos_lat sin_h0 direction fuel snap
            (body (rsCandidate lat lon sin_lat cos_lat sin_h0 direction cur))
        else
          some (some (rsCandidate lat lon sin_lat cos_lat sin_h0 direction cur), snap) := rfl

theorem risesetRecomputeLoop_zero (body : ℝ → PlanetState)
    (lat lon sin_lat cos_lat direction : ℝ) (h0f : PlanetState → ℝ)
    (snap cur : PlanetState) :
    risesetRecomputeLoop body lat lon sin_lat cos_lat direction h0f 0 snap cur = none := rfl

theorem risesetRecomputeLoop_succ (body : ℝ → PlanetState)
    (lat lon sin_lat cos_lat direction : ℝ) (h0f : PlanetState → ℝ) (fuel : ℕ)
    (snap cur : PlanetState) :
    risesetRecomputeLoop body lat lon sin_lat cos_lat direction h0f (fuel + 1) snap cur =
      if 1 < |rsCosLHA sin_lat cos_lat (Real.sin (h0f cur * (Real.pi / 180))) cur| then
        some (none, snap)
      else
        if 60000 ≤ |rsCandidate lat lon sin_lat cos_lat
            (Real.sin (h0f cur * (Real.pi / 180))) direction cur - cur.time| then
          risesetRecomputeLoop body lat lon sin_lat cos_lat direction h0f fuel snap
            (body (rsCandidate lat lon sin_lat cos_lat
              (Real.sin (h0f cur * (Real.pi / 180))) direction cur))
        else
          some (some (rsCandidate lat lon sin_lat cos_lat
            (Real.sin (h0f cur * (Real.pi / 180))) direction cur), snap) := rfl

theorem risesetLoop_state_eq_snap (body : ℝ → PlanetState)
    (lat lon sin_lat cos_lat sin_h0 direction : ℝ) :
    ∀ (fuel : ℕ) (snap cur : PlanetState) (r : Option ℝ) (s2 : PlanetState),
      risesetLoop body lat lon sin_lat cos_lat sin_h0 direction fuel snap cur =
        some (r, s2) → s2 = snap := by
  intro fuel
  induction fuel with
  | zero =>
    intro snap cur r s2 h
    rw [risesetLoop_zero] at h
    exact absurd h (by simp)
  | succ n ih =>
    intro snap cur r s2 h
    rw [risesetLoop_succ] at h
    split_ifs at h with h1 h2
    · simp only [Option.some.injEq, Prod.mk.injEq] at h
      exact h.2.symm
    · exact ih snap _ r s2 h
    · simp only [Option.some.injEq, Prod.mk.injEq] at h
      exact h.2.symm

theorem declination_y0z0 (t x : ℝ) : declination ⟨t, x, 0, 0⟩ = 0 := by
  unfold declination
  simp

theorem distance_y0z0 (t x : ℝ) : distance ⟨t, x, 0, 0⟩ = |x| := by
  unfold distance
  simp [Real.sqrt_mul_self_eq_abs]

theorem rsCosLHA_y0z0 (sin_lat cos_lat sin_h0 t x : ℝ) :
    rsCosLHA sin_lat cos_lat sin_h0 ⟨t, x, 0, 0⟩ = sin_h0 / cos_lat := by
  unfold rsCosLHA
  rw [declination_y0z0]
  simp

/-- C2: a completed call to riseset returns the body in exactly the state it
had at entry, on the NaN path and the normal path alike, so every derived
view (distance, right ascension, declination) is unchanged. -/
theorem riseset_restores_state (body : ℝ → PlanetState) (s : PlanetState)
    (lat lon h0 direction : ℝ) (fuel : ℕ) (r : Option ℝ) (s2 : PlanetState)
    (h : riseset body s lat lon h0 direction fuel = some (r, s2)) :
    s2 = s ∧ s2.time = s.time ∧ s2.x = s.x ∧ s2.y = s.y ∧ s2.z = s.z ∧
    distance s2 = distance s ∧ right_ascension s2 = right_ascension s ∧
    declination s2 = declination s := by
  have he : s2 = s := risesetLoop_state_eq_snap body lat lon _ _ _ direction fuel s s r s2 h
  subst he
  exact ⟨rfl, rfl, rfl, rfl, rfl, rfl, rfl, rfl⟩

/-- Witness for C2: a concrete one-iteration run that bails with the NaN
sentinel and hands back the entry state. -/
theorem riseset_restores_state_witness :
    riseset cexBody ⟨0, 1, 0, 0⟩ 60 0 90 1 1 =
      some (none, (⟨0, 1, 0, 0⟩ : PlanetState)) ∧
    (⟨0, 1, 0, 0⟩ : PlanetState) = ⟨0, 1, 0, 0⟩ := by
  have hsin90 : Real.sin ((90 : ℝ) * (Real.pi / 180)) = 1 := by
    rw [show (90 : ℝ) * (Real.pi / 180) = Real.pi / 2 by ring, Real.sin_pi_div_two]
  have hcos60 : Real.cos ((60 : ℝ) * (Real.pi / 180)) = 1 / 2 := by
    rw [show (60 : ℝ) * (Real.pi / 180) = Real.pi / 3 by ring, Real.cos_pi_div_three]
  have hval : rsCosLHA (Real.sin ((60 : ℝ) * (Real.pi / 180)))
      (Real.cos ((60 : ℝ) * (Real.pi / 180)))
      (Real.sin ((90 : ℝ) * (Real.pi / 180))) ⟨0, 1, 0, 0⟩ = 2 := by
    rw [rsCosLHA_y0z0, hsin90, hcos60]
    norm_num
  have heval : riseset cexBody ⟨0, 1, 0, 0⟩ 60 0 90 1 1 =
      some (none, (⟨0, 1, 0, 0⟩ : PlanetState)) := by
    unfold riseset
    rw [show (1 : ℕ) = 0 + 1 from rfl, risesetLoop_succ, if_pos]
    rw [hval]
    norm_num
  refine ⟨heval, ?_⟩
  exact (riseset_restores_state cexBody ⟨0, 1, 0, 0⟩ 60 0 90 1 1 none
    ⟨0, 1, 0, 0⟩ heval).1

theorem risesetLoop_none_fwd (body : ℝ → PlanetState)
    (lat lon sin_lat cos_lat sin_h0 direction : ℝ) :
    ∀ (fuel : ℕ) (snap cur : PlanetState) (s2 : PlanetState),
      risesetLoop body lat lon sin_lat cos_lat sin_h0 direction fuel snap cur =
        some (none, s2) →
      ∃ c, Relation.ReflTransGen
          (rsStep body lat lon sin_lat cos_lat sin_h0 direction) cur c ∧
        rsBail sin_lat cos_lat sin_h0 c := by
  intro fuel
  induction fuel with
  | zero =>
    intro snap cur s2 h
    rw [risesetLoop_zero] at h
    exact absurd h (by simp)
  | succ n ih =>
    intro snap cur s2 h
    rw [risesetLoop_succ] at h
    split_ifs at h with h1 h2
    · exact ⟨cur, Relation.ReflTransGen.refl, h1⟩
    · obtain ⟨c, hrtg, hb⟩ := ih snap _ s2 h
      exact ⟨c, Relation.ReflTransGen.head ⟨h1, h2, rfl⟩ hrtg, hb⟩
    · exact absurd h (by simp)

theorem risesetLoop_none_bwd (body : ℝ → PlanetState)
    (lat lon sin_lat cos_lat sin_h0 direction : ℝ) (snap : PlanetState) :
    ∀ (cur c : PlanetState),
      Relation.ReflTransGen (rsStep body lat lon sin_lat cos_lat sin_h0 direction) cur c →
      rsBail sin_lat cos_lat sin_h0 c →
      ∃ fuel, risesetLoop body lat lon sin_lat cos_lat sin_h0 direction fuel snap cur =
        some (none, snap) := by
  intro cur c hrtg
  induction hrtg using Relation.ReflTransGen.head_induction_on with
  | refl =>
    intro hb
    have hb2 : 1 < |rsCosLHA sin_lat cos_lat sin_h0 c| := hb
    exact ⟨1, by rw [show (1 : ℕ) = 0 + 1 from rfl, risesetLoop_succ, if_pos hb2]⟩
  | @head a b hstep hrest ih =>
    intro hb
    obtain ⟨fuel, hf⟩ := ih hb
    refine ⟨fuel + 1, ?_⟩
    have h1 : ¬ 1 < |rsCosLHA sin_lat cos_lat sin_h0 a| := hstep.1
    rw [risesetLoop_succ, if_neg h1, if_pos hstep.2.1, ← hstep.2.2]
    exact hf

theorem risesetLoop_some_fwd (body : ℝ → PlanetState)
    (lat lon sin_lat cos_lat sin_h0 direction : ℝ) :
    ∀ (fuel : ℕ) (snap cur : PlanetState) (t : ℝ) (s2 : PlanetState),
      risesetLoop body lat lon sin_lat cos_lat sin_h0 direction fuel snap cur =
        some (some t, s2) →
      ∃ c, Relation.ReflTransGen
          (rsStep body lat lon sin_lat cos_lat sin_h0 direction) cur c ∧
        ¬ rsBail sin_lat cos_lat sin_h0 c ∧
        |rsCandidate lat lon sin_lat cos_lat sin_h0 direction c - c.time| < 60000 ∧
        t = rsCandidate lat lon sin_lat cos_lat sin_h0 direction c := by
  intro fuel
  induction fuel with
  | zero =>
    intro snap cur t s2 h
    rw [risesetLoop_zero] at h
    exact absurd h (by simp)
  | succ n ih =>
    intro snap cur t s2 h
    rw [risesetLoop_succ] at h
    split_ifs at h with h1 h2
    · exact absurd h (by simp)
    · obtain ⟨c, hrtg, hnb, hnear, ht⟩ := ih snap _ t s2 h
      exact ⟨c, Relation.ReflTransGen.head ⟨h1, h2, rfl⟩ hrtg, hnb, hnear, ht⟩
    · simp only [Option.some.injEq, Prod.mk.injEq] at h
      exact ⟨cur, Relation.ReflTransGen.refl, h1, lt_of_not_le h2, h.1.symm⟩

/-- C3: riseset reports the no-event sentinel exactly when its iteration
reaches a state at which the magnitude of the computed cosine of the local
hour angle exceeds 1, and a normal return always hands back the candidate
timestamp of a reached state at which that magnitude is at most 1 and whose
candidate lies within one minute of that state's time; in this pure embedding
no other outcome exists, matching the source's exception-free loop. -/
theorem riseset_nan_characterization (body : ℝ → PlanetState) (s : PlanetState)
    (lat lon h0 direction : ℝ) :
    ((∃ fuel, riseset body s lat lon h0 direction fuel = some (none, s)) ↔
      (∃ c, Relation.ReflTransGen
          (rsStep body lat lon (Real.sin (lat * (Real.pi / 180)))
            (Real.cos (lat * (Real.pi / 180)))
            (Real.sin (h0 * (Real.pi / 180))) direction) s c ∧
        rsBail (Real.sin (lat * (Real.pi / 180))) (Real.cos (lat * (Real.pi / 180)))
          (Real.sin (h0 * (Real.pi / 180))) c)) ∧
    (∀ (fuel : ℕ) (t : ℝ) (s2 : PlanetState),
      riseset body s lat lon h0 direction fuel = some (some t, s2) →
      ∃ c, Relation.ReflTransGen
          (rsStep body lat lon (Real.sin (lat * (Real.pi / 180)))
            (Real.cos (lat * (Real.pi / 180)))
            (Real.sin (h0 * (Real.pi / 180))) direction) s c ∧
        ¬ rsBail (Real.sin (lat * (Real.pi / 180))) (Real.cos (lat * (Real.pi / 180)))
          (Real.sin (h0 * (Real.pi / 180))) c ∧
        |rsCandidate lat lon (Real.sin (lat * (Real.pi / 180)))
          (Real.cos (lat * (Real.pi / 180))) (Real.sin (h0 * (Real.pi / 180)))
          direction c - c.time| < 60000 ∧
        t = rsCandidate lat lon (Real.sin (lat * (Real.pi / 180)))
          (Real.cos (lat * (Real.pi / 180))) (Real.sin (h0 * (Real.pi / 180)))
          direction c) := by
  constructor
  · constructor
    · intro ⟨fuel, hf⟩
      exact risesetLoop_none_fwd body lat lon _ _ _ direction fuel s s s hf
    · intro ⟨c, hrtg, hb⟩
      exact risesetLoop_none_bwd body lat lon _ _ _ direction s s c hrtg hb
  · intro fuel t s2 hf
    exact risesetLoop_some_fwd body lat lon _ _ _ direction fuel s s t s2 hf

theorem time_mk (a b c d : ℝ) : (PlanetState.mk a b c d).time = a := rfl

theorem x_mk (a b c d : ℝ) : (PlanetState.mk a b c d).x = b := rfl

theorem sin_deg_pos {a : ℝ} (h0 : 0 < a) (h180 : a < 180) :
    0 < Real.sin (a * (Real.pi / 180)) := by
  apply Real.sin_pos_of_pos_of_lt_pi
  · positivity
  · have h : a * (Real.pi / 180) < 180 * (Real.pi / 180) :=
      mul_lt_mul_of_pos_right h180 (by positivity)
    have h2 : (180 : ℝ) * (Real.pi / 180) = Real.pi := by ring
    linarith

theorem sin_deg_strict_mono {a b : ℝ} (h0 : 0 ≤ a) (hab : a < b) (hb : b ≤ 90) :
    Real.sin (a * (Real.pi / 180)) < Real.sin (b * (Real.pi / 180)) := by
  have hpi := Real.pi_pos
  apply Real.strictMonoOn_sin
  · exact Set.mem_Icc.mpr ⟨by nlinarith, by nlinarith⟩
  · exact Set.mem_Icc.mpr ⟨by nlinarith, by nlinarith⟩
  · nlinarith

theorem right_ascension_y0z0 (t x : ℝ) (hx : x ≤ 0) :
    right_ascension ⟨t, x, 0, 0⟩ = 12 := by
  unfold right_ascension atan2
  simp only [zero_mul, mul_zero, sub_zero, time_mk, x_mk]
  rw [show (⟨-x, 0⟩ : ℂ) = ((-x : ℝ) : ℂ) from by apply Complex.ext <;> simp]
  rw [Complex.arg_ofReal_of_nonneg (by linarith)]
  ring

/-- C9: an observer at the sub-body point, with latitude equal to the body's
declination and longitude chosen so that the hour angle is zero, sees the body
at altitude exactly 90 degrees: the geocentric sine of altitude is 1 and the
parallax term is multiplied by a vanishing cosine. The nonzero-distance
hypothesis reflects that the source's parallax term is only meaningful for a
body away from the origin. -/
theorem observer_subpoint_altitude (s : PlanetState) (hd : distance s ≠ 0) :
    (observer s (declination s) (15 * (right_ascension s - gmst s.time))).altitude
      = 90 := by
  have hha : hour_angle s (15 * (right_ascension s - gmst s.time)) = 0 := by
    unfold hour_angle
    rw [show gmst s.time + 15 * (right_ascension s - gmst s.time) * (1 / 15)
        - right_ascension s = 0 by ring]
    simp
  unfold observer
  rw [hha]
  simp only [zero_mul, Real.sin_zero, Real.cos_zero, mul_one]
  have hsq : Real.sin (declination s * (Real.pi / 180)) *
      Real.sin (declination s * (Real.pi / 180)) +
      Real.cos (declination s * (Real.pi / 180)) *
      Real.cos (declination s * (Real.pi / 180)) = 1 := by
    have h := Real.sin_sq_add_cos_sq (declination s * (Real.pi / 180))
    rw [pow_two, pow_two] at h
    exact h
  rw [hsq, Real.arcsin_one]
  rw [show (1 : ℝ) - 1 * 1 = 0 by norm_num, Real.sqrt_zero, mul_zero, sub_zero]
  rw [div_mul_eq_mul_div, pi_mul_div_pi]
  norm_num

/-- Witness for C9: the state at position (-1, 0, 0) has distance 1 and the
observer at its sub-body point sees altitude 90. -/
theorem observer_subpoint_altitude_witness :
    distance ⟨0, -1, 0, 0⟩ ≠ 0 ∧
    (observer ⟨0, -1, 0, 0⟩ (declination ⟨0, -1, 0, 0⟩)
      (15 * (right_ascension ⟨0, -1, 0, 0⟩ -
        gmst (PlanetState.time ⟨0, -1, 0, 0⟩)))).altitude = 90 := by
  have hd : distance (⟨0, -1, 0, 0⟩ : PlanetState) ≠ 0 := by
    rw [distance_y0z0]
    norm_num
  exact ⟨hd, observer_subpoint_altitude ⟨0, -1, 0, 0⟩ hd⟩

theorem risesetLoop_eq_recompute_const (body : ℝ → PlanetState)
    (lat lon sin_lat cos_lat h0 direction : ℝ) :
    ∀ (fuel : ℕ) (snap cur : PlanetState),
      risesetLoop body lat lon sin_lat cos_lat (Real.sin (h0 * (Real.pi / 180)))
        direction fuel snap cur =
      risesetRecomputeLoop body lat lon sin_lat cos_lat direction
        (fun _ => h0) fuel snap cur := by
  intro fuel
  induction fuel with
  | zero =>
    intro snap cur
    rw [risesetLoop_zero, risesetRecomputeLoop_zero]
  | succ n ih =>
    intro snap cur
    simp only [risesetLoop_succ, risesetRecomputeLoop_succ, ih]

/-- C1 amended: Moon.rise and Moon.set pass the solver the threshold
-0.583 - parallax(distance) evaluated once on the entry state, and the solver
keeps its sine fixed across the whole iteration: the run coincides with the
recomputing solver only for the threshold function frozen at the constant
entry value, not for the function of the current distance. -/
theorem moon_riseset_threshold_fixed_at_entry (kfuel lfuel : ℕ) (s : PlanetState)
    (lat lon : ℝ) :
    moonRise kfuel lfuel s lat lon =
      risesetRecompute (moonSetTime kfuel) s lat lon
        (fun _ => moonThreshold s) (-1) lfuel ∧
    moonSet kfuel lfuel s lat lon =
      risesetRecompute (moonSetTime kfuel) s lat lon
        (fun _ => moonThreshold s) 1 lfuel := by
  constructor
  · unfold moonRise riseset risesetRecompute moonThreshold
    exact risesetLoop_eq_recompute_const (moonSetTime kfuel) lat lon _ _ _ (-1) lfuel s s
  · unfold moonSet riseset risesetRecompute moonThreshold
    exact risesetLoop_eq_recompute_const (moonSetTime kfuel) lat lon _ _ _ 1 lfuel s s

/-- C1 counterexample: a concrete two-iteration run on which the source
solver, whose threshold sine is fixed at entry, disagrees with the solver the
claim describes, which would recompute the threshold from the current distance
at every evaluation of the loop: starting from distance 2 the stepped state
has distance 1, so the recomputed threshold crosses the bail boundary at
latitude 89.4155 degrees and the recomputing solver returns the NaN sentinel
on its second iteration while the source solver does not. -/
theorem riseset_threshold_not_recomputed_counterexample :
    riseset cexBody ⟨0, -2, 0, 0⟩ 89.4155 79.502235
      (moonThreshold ⟨0, -2, 0, 0⟩) (-1) 2 ≠
    risesetRecompute cexBody ⟨0, -2, 0, 0⟩ 89.4155 79.502235
      moonThreshold (-1) 2 := by
  have hlat : (89.4155 : ℝ) * (Real.pi / 180)
      = Real.pi / 2 - 0.5845 * (Real.pi / 180) := by ring
  have hsl : Real.sin ((89.4155 : ℝ) * (Real.pi / 180))
      = Real.cos ((0.5845 : ℝ) * (Real.pi / 180)) := by
    rw [hlat, Real.sin_pi_div_two_sub]
  have hcl : Real.cos ((89.4155 : ℝ) * (Real.pi / 180))
      = Real.sin ((0.5845 : ℝ) * (Real.pi / 180)) := by
    rw [hlat, Real.cos_pi_div_two_sub]
  have hth0 : moonThreshold ⟨0, -2, 0, 0⟩ = -0.5842215 := by
    unfold moonThreshold parallax
    rw [distance_y0z0, abs_of_neg (show (-2 : ℝ) < 0 by norm_num)]
    norm_num
  have hs2n : Real.sin ((-0.5842215 : ℝ) * (Real.pi / 180))
      = -Real.sin ((0.5842215 : ℝ) * (Real.pi / 180)) := by
    rw [show (-0.5842215 : ℝ) * (Real.pi / 180)
      = -((0.5842215 : ℝ) * (Real.pi / 180)) by ring, Real.sin_neg]
  have hth1 : ∀ t : ℝ, moonThreshold ⟨t, -1, 0, 0⟩ = -0.585443 := by
    intro t
    unfold moonThreshold parallax
    rw [distance_y0z0, abs_of_neg (show (-1 : ℝ) < 0 by norm_num)]
    norm_num
  have hs1n : Real.sin ((-0.585443 : ℝ) * (Real.pi / 180))
      = -Real.sin ((0.585443 : ℝ) * (Real.pi / 180)) := by
    rw [show (-0.585443 : ℝ) * (Real.pi / 180)
      = -((0.585443 : ℝ) * (Real.pi / 180)) by ring, Real.sin_neg]
  have hsd_pos : 0 < Real.sin ((0.5845 : ℝ) * (Real.pi / 180)) :=
    sin_deg_pos (by norm_num) (by norm_num)
  have hs2_pos : 0 < Real.sin ((0.5842215 : ℝ) * (Real.pi / 180)) :=
    sin_deg_pos (by norm_num) (by norm_num)
  have hs1_pos : 0 < Real.sin ((0.585443 : ℝ) * (Real.pi / 180)) :=
    sin_deg_pos (by norm_num) (by norm_num)
  have hs2_lt : Real.sin ((0.5842215 : ℝ) * (Real.pi / 180))
      < Real.sin ((0.5845 : ℝ) * (Real.pi / 180)) :=
    sin_deg_strict_mono (by norm_num) (by norm_num) (by norm_num)
  have hs1_gt : Real.sin ((0.5845 : ℝ) * (Real.pi / 180))
      < Real.sin ((0.585443 : ℝ) * (Real.pi / 180)) :=
    sin_deg_strict_mono (by norm_num) (by norm_num) (by norm_num)
  have hnb1 : ¬ 1 < |(-Real.sin ((0.5842215 : ℝ) * (Real.pi / 180)))
      / Real.sin ((0.5845 : ℝ) * (Real.pi / 180))| := by
    rw [abs_div, abs_neg, abs_of_pos hs2_pos, abs_of_pos hsd_pos]
    rw [not_lt, div_le_one hsd_pos]
    linarith
  have hb2 : 1 < |(-Real.sin ((0.585443 : ℝ) * (Real.pi / 180)))
      / Real.sin ((0.5845 : ℝ) * (Real.pi / 180))| := by
    rw [abs_div, abs_neg, abs_of_pos hs1_pos, abs_of_pos hsd_pos]
    exact (one_lt_div hsd_pos).mpr hs1_gt
  have hra : right_ascension ⟨0, -2, 0, 0⟩ = 12 :=
    right_ascension_y0z0 0 (-2) (by norm_num)
  have hha : hour_angle ⟨0, -2, 0, 0⟩ 79.502235 = 0 := by
    unfold hour_angle
    rw [hra]
    norm_num [gmst, time_mk]
  have htr : transit ⟨0, -2, 0, 0⟩ 89.4155 79.502235 = 0 := by
    unfold transit
    rw [hha]
    norm_num [time_mk]
  have hfar : 60000 ≤ |rsCandidate 89.4155 79.502235
      (Real.cos ((0.5845 : ℝ) * (Real.pi / 180)))
      (Real.sin ((0.5845 : ℝ) * (Real.pi / 180)))
      (-Real.sin ((0.5842215 : ℝ) * (Real.pi / 180))) (-1) ⟨0, -2, 0, 0⟩
      - (0 : ℝ)| := by
    unfold rsCandidate
    rw [rsCosLHA_y0z0, htr]
    have hvle : (-Real.sin ((0.5842215 : ℝ) * (Real.pi / 180)))
        / Real.sin ((0.5845 : ℝ) * (Real.pi / 180)) ≤ 0 :=
      div_nonpos_iff.mpr (Or.inr ⟨by linarith, by linarith⟩)
    have hA : Real.pi / 2 ≤ Real.arccos ((-Real.sin ((0.5842215 : ℝ) * (Real.pi / 180)))
        / Real.sin ((0.5845 : ℝ) * (Real.pi / 180))) := by
      rw [Real.arccos_eq_pi_div_two_sub_arcsin]
      have h := Real.arcsin_nonpos.mpr hvle
      linarith
    rw [show (0 : ℝ) + 13713440.9 * (-1) * Real.arccos
        ((-Real.sin ((0.5842215 : ℝ) * (Real.pi / 180)))
          / Real.sin ((0.5845 : ℝ) * (Real.pi / 180))) - 0
        = -(13713440.9 * Real.arccos ((-Real.sin ((0.5842215 : ℝ) * (Real.pi / 180)))
          / Real.sin ((0.5845 : ℝ) * (Real.pi / 180)))) by ring]
    rw [abs_neg, abs_of_nonneg (mul_nonneg (by norm_num) (Real.arccos_nonneg _))]
    nlinarith [Real.pi_gt_three]
  unfold riseset risesetRecompute
  rw [hsl, hcl, hth0, hs2n]
  rw [show (2 : ℕ) = 1 + 1 from rfl]
  rw [risesetLoop_succ, risesetRecomputeLoop_succ]
  rw [hth0, hs2n]
  simp only [rsCosLHA_y0z0, time_mk]
  rw [if_neg hnb1, if_neg hnb1]
  rw [if_pos hfar, if_pos hfar]
  simp only [cexBody]
  rw [show (1 : ℕ) = 0 + 1 from rfl]
  rw [risesetLoop_succ, risesetRecomputeLoop_succ]
  rw [hth1, hs1n]
  simp only [rsCosLHA_y0z0, time_mk]
  rw [if_pos hb2, if_neg hnb1]
  split_ifs <;> simp [risesetLoop_zero]

/-- C10: the Sun variant passes inclination 0 and ascending node 0, so its z
coordinate is exactly 0 at every time regardless of the Kepler iteration
budget, and therefore its latitude accessor returns exactly 0 degrees; every
state the Sun ever computes, including the solver's internal steps, has this
shape. -/
theorem sun_z_zero_latitude_zero (kfuel : ℕ) (t : ℝ) :
    (sunSetTime kfuel t).z = 0 ∧ latitude (sunSetTime kfuel t) = 0 := by
  have hz : (sunSetTime kfuel t).z = 0 := by
    unfold sunSetTime setTime
    simp
  refine ⟨hz, ?_⟩
  unfold latitude
  rw [hz, zero_div, Real.arcsin_zero, zero_mul]

end Astro

